import Mathlib

/-!
Shallow embedding of the `k-novak/pdf` desktop PDF viewer
(`src/pdf_viewer.py`, `src/tidy.py`) and proofs about its
specification claims.

The GUI toolkit (Qt) supplies rendering, file-system models and
window management; the repository's own logic — the PDF filter
predicate, page clamping, zoom-mode switching, document-load outcome
and the small persistence files (favorites, last root, window state)
— is embedded here as pure functions.  File contents are modelled as
`Option String` (`none` = the file does not exist) and the file
system's path-existence test as a function `String → Bool`.
-/

namespace PdfViewer

/-! ### Python string primitives used by the source -/

/-- Model of Python `str.lower()` (ASCII case folding suffices for the
`".pdf"` comparison made by the source). -/
def pyLower (s : String) : String := String.mk (s.data.map Char.toLower)

/-- Model of Python `str.endswith`. -/
def pyEndswith (s suff : String) : Bool := suff.data.isSuffixOf s.data

/-- Characters Python's `str.strip()` removes (the ASCII whitespace set). -/
def isPyWhitespace (c : Char) : Bool :=
  c = ' ' || c = '\t' || c = '\n' || c = '\r' || c = '\x0b' || c = '\x0c'

/-- Model of Python `str.strip()`: drop leading and trailing whitespace. -/
def pyStrip (s : String) : String :=
  String.mk (((s.data.dropWhile isPyWhitespace).reverse.dropWhile isPyWhitespace).reverse)

/-- Characters Python's `str.splitlines()` treats as line boundaries. -/
def isLineBoundary (c : Char) : Bool :=
  c = '\n' || c = '\r' || c = '\x0b' || c = '\x0c' || c = '\x1c' ||
  c = '\x1d' || c = '\x1e' || c = '\x85' || c = ' ' || c = ' '

/-- Worker for `pySplitlines`; `acc` holds the current line reversed. -/
def splitlinesAux : List Char → List Char → List String
  | [], acc => if acc.isEmpty then [] else [String.mk acc.reverse]
  | '\r' :: '\n' :: rest, acc => String.mk acc.reverse :: splitlinesAux rest []
  | c :: rest, acc =>
      if isLineBoundary c then String.mk acc.reverse :: splitlinesAux rest []
      else splitlinesAux rest (c :: acc)

/-- Model of Python `str.splitlines()` (a trailing line boundary does not
produce a final empty line). -/
def pySplitlines (s : String) : List String := splitlinesAux s.data []

/-- Model of Python `sep.join(items)`. -/
def pyJoin (sep : String) : List String → String
  | [] => ""
  | [x] => x
  | x :: y :: ys => x ++ sep ++ pyJoin sep (y :: ys)

/-- Worker for `basename`: the characters seen since the last `/`. -/
def basenameAux : List Char → List Char → List Char
  | [], acc => acc.reverse
  | c :: rest, acc =>
      if c = '/' then basenameAux rest []
      else basenameAux rest (c :: acc)

/-- Model of Python `os.path.basename` on forward-slash paths: the part of
the path after the last `/`. -/
def basename (path : String) : String := String.mk (basenameAux path.data [])

/-! ### `clamp` and page navigation (`CenterPdfView`) -/

/-- The helper `clamp(v, lo, hi) = max(lo, min(hi, v))` from `pdf_viewer.py`. -/
def clamp (v lo hi : Int) : Int := max lo (min hi v)

/-- Model of `CenterPdfView.go_to_page`: the page actually passed to
`pageNavigator().jump` for a document with `pageCount` pages. -/
def go_to_page (pageCount : Nat) (pageZeroBased : Int) : Int :=
  clamp pageZeroBased 0 (max 0 ((pageCount : Int) - 1))

/-- Model of `CenterPdfView.next_page`: jump target from the current page. -/
def next_page (pageCount : Nat) (current : Int) : Int :=
  go_to_page pageCount (current + 1)

/-- Model of `CenterPdfView.prev_page`: jump target from the current page. -/
def prev_page (pageCount : Nat) (current : Int) : Int :=
  go_to_page pageCount (current - 1)

/-! ### The PDF filter proxy model -/

/-- The data of one row of the file-system source model, as much of it as
`PdfFilterProxyModel.filterAcceptsRow` consults: whether the model index
is valid, whether the entry is a directory, and its file name. -/
structure SourceRow where
  valid : Bool
  isDir : Bool
  fileName : String

/-- Model of `PdfFilterProxyModel.filterAcceptsRow` (identical in `pdf_viewer.py`
and `tidy.py`). -/
def filterAcceptsRow (row : SourceRow) : Bool :=
  if !row.valid then false
  else if row.isDir then true
  else pyEndswith (pyLower row.fileName) ".pdf"

/-! ### Zoom modes (`CenterPdfView`, `MainWindow`) -/

/-- The toolkit's `QPdfView.ZoomMode`: exactly the three settings offered by the
rendering toolkit. `Custom` is the manual mode. -/
inductive ZoomMode where
  | FitToWidth
  | FitInView
  | Custom
  deriving DecidableEq, Repr

/-- The view state that the zoom operations read and write. -/
structure ViewState where
  zoomMode : ZoomMode
  zoomFactor : ℚ
  deriving DecidableEq, Repr

/-- The helper `clamp` at rational arguments, as used by `set_zoom_factor`. -/
def clampQ (v lo hi : ℚ) : ℚ := max lo (min hi v)

/-- Model of `CenterPdfView.set_zoom_factor`: clamps the factor into `[0.05, 6.0]`. -/
def set_zoom_factor (v : ViewState) (f : ℚ) : ViewState :=
  { v with zoomFactor := clampQ f (1/20) 6 }

/-- Model of `CenterPdfView.fit_width`. -/
def fit_width (v : ViewState) : ViewState := { v with zoomMode := .FitToWidth }

/-- Model of `CenterPdfView.fit_height` (sets `FitInView`). -/
def fit_height (v : ViewState) : ViewState := { v with zoomMode := .FitInView }

/-- Model of `CenterPdfView.custom_zoom`. -/
def custom_zoom (v : ViewState) : ViewState := { v with zoomMode := .Custom }

/-- Model of `MainWindow._zoom_in`: switch to custom (manual) mode, then scale the
factor by 1.10. -/
def zoom_in (v : ViewState) : ViewState :=
  let v1 := custom_zoom v
  set_zoom_factor v1 (v1.zoomFactor * (11/10))

/-- Model of `MainWindow._zoom_out`: switch to custom (manual) mode, then divide the
factor by 1.10. -/
def zoom_out (v : ViewState) : ViewState :=
  let v1 := custom_zoom v
  set_zoom_factor v1 (v1.zoomFactor / (11/10))

/-! ### Document loading (`CenterPdfView.load_file`) -/

/-- The document status the toolkit reports (as of Qt 6.10, per the
comment in `load_file`, only Null, Loading, Ready and Unloading exist). -/
inductive PdfStatus where
  | Null
  | Loading
  | Ready
  | Unloading
  deriving DecidableEq, Repr

/-- Everything observable that `CenterPdfView.load_file` does: its return
value, the stacked layout's current index after the call (0 = the PDF
view, 1 = the error overlay), the overlay label's text, the page jumped
to, and whether `documentLoaded` was emitted. -/
structure LoadOutcome where
  result : Bool
  stackIndex : Nat
  overlayText : String
  jumpedToPage : Option Nat
  emittedDocumentLoaded : Bool
  deriving DecidableEq, Repr

/-- Model of `CenterPdfView.load_file`, parametrised by the document
status and page count the toolkit reports after `doc.load(file_path)`. -/
def load_file (filePath : String) (st : PdfStatus) (pageCount : Nat) : LoadOutcome :=
  if st ≠ PdfStatus.Ready ∨ pageCount = 0 then
    { result := false
      stackIndex := 1
      overlayText := basename filePath ++ "\n\nNot readable or empty."
      jumpedToPage := none
      emittedDocumentLoaded := false }
  else
    { result := true
      stackIndex := 0
      overlayText := ""
      jumpedToPage := some 0
      emittedDocumentLoaded := true }

/-! ### Favorites and last-root persistence (`FilesPanel`) -/

/-- Model of `FilesPanel._load_favorites`: the favorites list built from
the favorites file (`none` = the file does not exist): the stripped
lines that are non-empty and exist on disk, in file order. -/
def load_favorites (pathExists : String → Bool) (fileContent : Option String) :
    List String :=
  match fileContent with
  | none => []
  | some txt =>
      (pySplitlines txt).filterMap fun line =>
        let l := pyStrip line
        if l != "" && pathExists l then some l else none

/-- Model of `FilesPanel._save_favorites`: the text written to the
favorites file for the current list items. -/
def save_favorites (items : List String) : String := pyJoin "\n" items

/-- Model of `tidy.py`'s `MainWindow._loadFavorites`: it reads
`favorites.txt` with no existence check, so an absent file makes
`read_text` raise `FileNotFoundError` (modelled as `none`); otherwise
every split line of the content is added to the list, unfiltered. -/
def tidy_loadFavorites (fileContent : Option String) : Option (List String) :=
  match fileContent with
  | none => none
  | some txt => some (pySplitlines txt)

/-- Model of `FilesPanel._load_last_root`: `some root` exactly when the
last-root file exists and its stripped content is non-empty and exists
on disk. -/
def load_last_root (pathExists : String → Bool) (fileContent : Option String) :
    Option String :=
  match fileContent with
  | none => none
  | some txt =>
      let root := pyStrip txt
      if root != "" && pathExists root then some root else none

/-- Model of the `FilesPanel.__init__` line
`start_root = self._load_last_root() or str(Path.home())`. -/
def start_root (pathExists : String → Bool) (fileContent : Option String)
    (home : String) : String :=
  (load_last_root pathExists fileContent).getD home

/-- Model of `FilesPanel._activate_favorite` (and of `_on_double_clicked`
on a directory): the content written to the last-root file when a folder
is activated (`none` = the folder does not exist, nothing is written). -/
def activate_favorite (pathExists : String → Bool) (folder : String) :
    Option String :=
  if pathExists folder then some folder else none

/-- The state `FilesPanel._add_favorite` touches: the favorites list
widget's items and the favorites file's content (`none` = never saved). -/
structure FavoritesState where
  favList : List String
  savedFile : Option String
  deriving DecidableEq, Repr

/-- Model of `FilesPanel._add_favorite` with the folder chosen in the
dialog (`""` = the dialog was cancelled): skip the empty string, return
unchanged on a duplicate, otherwise append the folder and save. -/
def add_favorite (st : FavoritesState) (folder : String) : FavoritesState :=
  if folder = "" then st
  else if st.favList.contains folder then st
  else
    { favList := st.favList ++ [folder]
      savedFile := some (save_favorites (st.favList ++ [folder])) }

/-! ### Window-state persistence (`MainWindow`) -/

/-- JSON values as handled by Python's `json` module (numbers restricted
to integers, which is all the window-state record uses). -/
inductive Json where
  | null
  | bool (b : Bool)
  | num (n : Int)
  | str (s : String)
  | arr (elems : List Json)
  | obj (fields : List (String × Json))

/-- Model of Python `dict.get` on a parsed JSON object: the value of the
last binding of `key` (with duplicate keys, `json.loads` keeps the
last), `none` when the key is missing. -/
def dictGet : List (String × Json) → String → Option Json
  | [], _ => none
  | (k, v) :: rest, key =>
      match dictGet rest key with
      | some w => some w
      | none => if k = key then some v else none

/-- Python truthiness of a JSON value. -/
def jsonTruthy : Json → Bool
  | .null => false
  | .bool b => b
  | .num n => n != 0
  | .str s => s != ""
  | .arr elems => !elems.isEmpty
  | .obj fields => !fields.isEmpty

/-- Python `len` of a JSON value; `none` when `len` raises `TypeError`
(numbers, booleans, `null`). -/
def jsonLen : Json → Option Nat
  | .arr elems => some elems.length
  | .str s => some s.length
  | .obj fields => some fields.length
  | _ => none

/-- A JSON value accepted where a C `int` is expected by `setGeometry`
(Python `bool` is an `int` subclass). -/
def jsonAsCInt : Json → Option Int
  | .num n => some n
  | .bool b => some (if b then 1 else 0)
  | _ => none

/-- Model of `x, y, w, h = geom; self.setGeometry(x, y, w, h)` on a
length-4 value: succeeds exactly on a 4-element array of int-like
values; anything else raises inside the `try` block. -/
def asGeometry : Json → Option (Int × Int × Int × Int)
  | .arr [a, b, c, d] =>
      match jsonAsCInt a, jsonAsCInt b, jsonAsCInt c, jsonAsCInt d with
      | some x, some y, some w, some h => some (x, y, w, h)
      | _, _, _, _ => none
  | _ => none

/-- Whether the window ends up maximized or shown normal. -/
inductive WindowDisplay where
  | maximized
  | normal
  deriving DecidableEq, Repr

/-- The observable outcome of `MainWindow._load_window_settings`: the
rectangle passed to `setGeometry` (if any) and the final display state. -/
structure LoadWindowResult where
  appliedGeometry : Option (Int × Int × Int × Int)
  display : WindowDisplay
  deriving DecidableEq, Repr

/-- Model of `MainWindow._load_window_settings`.  The argument models the
window-state file: `none` = the file does not exist, `some none` = it
exists but `json.loads` raises, `some (some data)` = it parses to
`data`.  Any exception inside the `try` block falls back to
`showMaximized()`; a parsed value that is not an object makes
`data.get` raise. -/
def load_window_settings (file : Option (Option Json)) : LoadWindowResult :=
  match file with
  | none => ⟨none, .maximized⟩
  | some none => ⟨none, .maximized⟩
  | some (some data) =>
      match data with
      | .obj fields =>
          let geom := dictGet fields "geometry"
          let isMax := (dictGet fields "is_maximized").getD (.bool false)
          match geom with
          | none => ⟨none, if jsonTruthy isMax then .maximized else .normal⟩
          | some g =>
              if jsonTruthy g then
                match jsonLen g with
                | none => ⟨none, .maximized⟩
                | some l =>
                    if l = 4 then
                      match asGeometry g with
                      | some q =>
                          ⟨some q, if jsonTruthy isMax then .maximized else .normal⟩
                      | none => ⟨none, .maximized⟩
                    else ⟨none, if jsonTruthy isMax then .maximized else .normal⟩
              else ⟨none, if jsonTruthy isMax then .maximized else .normal⟩
      | _ => ⟨none, .maximized⟩

/-- The window state `MainWindow._save_window_settings` reads: the normal
(restored) geometry — which the method captures by calling
`showNormal()` first when the window is maximized — and the maximized
flag. -/
structure WindowState where
  normalX : Int
  normalY : Int
  normalW : Int
  normalH : Int
  maximized : Bool

/-- Model of `MainWindow._save_window_settings`: the JSON record written
to the window-state file. -/
def save_window_settings (w : WindowState) : Json :=
  Json.obj
    [("geometry", Json.arr [Json.num w.normalX, Json.num w.normalY,
                            Json.num w.normalW, Json.num w.normalH]),
     ("is_maximized", Json.bool w.maximized)]

/-- Model of `MainWindow.closeEvent`: it calls `_save_window_settings`,
so this is the record persisted when the window closes. -/
def closeEvent_write (w : WindowState) : Json := save_window_settings w

/-- The window-state record of the C6 counterexample: valid JSON whose
geometry list has three elements and whose maximized flag is false. -/
def badWindowJson : Json :=
  Json.obj [("geometry", Json.arr [Json.num 1, Json.num 2, Json.num 3]),
            ("is_maximized", Json.bool false)]

end PdfViewer

namespace PdfViewer

/-! ### Theorems -/

/-- Claim C1: the proxy filter accepts a row of the file-system source
model if and only if the row's index is valid and either the entry is a
directory or its file name, lowercased, ends with ".pdf"; every other
file is rejected (hidden from the tree view). -/
theorem filterAcceptsRow_iff (row : SourceRow) :
    filterAcceptsRow row = true ↔
      row.valid = true ∧
        (row.isDir = true ∨ pyEndswith (pyLower row.fileName) ".pdf" = true) := by
  unfold filterAcceptsRow
  cases h : row.valid <;> cases h2 : row.isDir <;> simp

/-- Claim C9: `go_to_page` jumps to `clamp(n, 0, max(0, page_count - 1))`,
so the target of `go_to_page`, `next_page` and `prev_page` always lies
within the document's valid page range (and is 0 for an empty document). -/
theorem go_to_page_in_range (pageCount : Nat) (n current : Int) :
    go_to_page pageCount n = clamp n 0 (max 0 ((pageCount : Int) - 1)) ∧
    0 ≤ go_to_page pageCount n ∧
    go_to_page pageCount n ≤ max 0 ((pageCount : Int) - 1) ∧
    (0 < pageCount → go_to_page pageCount n < (pageCount : Int)) ∧
    (pageCount = 0 → go_to_page pageCount n = 0) ∧
    0 ≤ next_page pageCount current ∧
    next_page pageCount current ≤ max 0 ((pageCount : Int) - 1) ∧
    0 ≤ prev_page pageCount current ∧
    prev_page pageCount current ≤ max 0 ((pageCount : Int) - 1) := by
  unfold next_page prev_page go_to_page clamp
  refine ⟨rfl, ?_, ?_, ?_, ?_, ?_, ?_, ?_, ?_⟩ <;> omega

/-- Witness for C9 at a five-page document and an out-of-range request. -/
theorem go_to_page_in_range_witness :
    0 ≤ go_to_page 5 99 ∧ go_to_page 5 99 < (5 : Int) ∧ go_to_page 0 (-3) = 0 :=
  ⟨(go_to_page_in_range 5 99 0).2.1,
   (go_to_page_in_range 5 99 0).2.2.2.1 (by decide),
   (go_to_page_in_range 0 (-3) 0).2.2.2.2.1 rfl⟩

/-- Claim C8: the fit mode is exactly one of three settings; `fit_width`,
`fit_height` and `custom_zoom` set `FitToWidth`, `FitInView` and `Custom`
respectively, and both zoom-in and zoom-out leave the mode at `Custom`
(manual), having switched to it first. -/
theorem fit_mode_ops (v : ViewState) :
    (∀ m : ZoomMode, m = .FitToWidth ∨ m = .FitInView ∨ m = .Custom) ∧
    (fit_width v).zoomMode = .FitToWidth ∧
    (fit_height v).zoomMode = .FitInView ∧
    (custom_zoom v).zoomMode = .Custom ∧
    (zoom_in v).zoomMode = .Custom ∧
    (zoom_out v).zoomMode = .Custom := by
  refine ⟨fun m => ?_, rfl, rfl, rfl, rfl, rfl⟩
  cases m <;> simp

/-- Helper: the accumulator worker of `String.intercalate` computes
`pyJoin` with the accumulator as the first item. -/
theorem intercalate_go_eq_pyJoin (s : String) :
    ∀ as acc, String.intercalate.go acc s as = pyJoin s (acc :: as) := by
  intro as
  induction as with
  | nil => intro acc; rfl
  | cons a as ih =>
      intro acc
      have hstep : String.intercalate.go acc s (a :: as) =
          String.intercalate.go (acc ++ s ++ a) s as := rfl
      rw [hstep, ih]
      cases as with
      | nil => rfl
      | cons b bs => simp [pyJoin, String.append_assoc]

/-- Helper: a filterMap that maps and then keeps the values passing a
test is the filter of the mapped list (the shape of the
`_load_favorites` loop). -/
theorem filterMap_if_eq_map_filter {α β : Type} (f : α → β) (q : β → Bool)
    (l : List α) :
    (l.filterMap fun x => if q (f x) then some (f x) else none) =
      (l.map f).filter q := by
  induction l with
  | nil => rfl
  | cons a as ih =>
      by_cases h : q (f a) = true
      · simp [List.filterMap_cons, h, ih]
      · simp [List.filterMap_cons, h, ih]

/-- Claim C2: `load_file` returns false and displays the error overlay
(stack index 1 with the "Not readable or empty." message) if and only if
the post-load document status is not Ready or the page count is 0;
otherwise it hides the overlay, jumps to page 0, emits `documentLoaded`,
and returns true. -/
theorem load_file_spec (filePath : String) (st : PdfStatus) (pageCount : Nat) :
    (((load_file filePath st pageCount).result = false ∧
      (load_file filePath st pageCount).stackIndex = 1 ∧
      (load_file filePath st pageCount).overlayText =
        basename filePath ++ "\n\nNot readable or empty.") ↔
      (st ≠ PdfStatus.Ready ∨ pageCount = 0)) ∧
    (st = PdfStatus.Ready ∧ pageCount ≠ 0 →
      (load_file filePath st pageCount).result = true ∧
      (load_file filePath st pageCount).stackIndex = 0 ∧
      (load_file filePath st pageCount).jumpedToPage = some 0 ∧
      (load_file filePath st pageCount).emittedDocumentLoaded = true) := by
  by_cases h : st ≠ PdfStatus.Ready ∨ pageCount = 0
  · constructor
    · simp [load_file, h]
    · rintro ⟨rfl, hn⟩
      rcases h with h | h
      · exact absurd rfl h
      · exact absurd h hn
  · push_neg at h
    obtain ⟨hst, hn⟩ := h
    constructor
    · simp [load_file, hst, hn]
    · intro _
      simp [load_file, hst, hn]

/-- Witness for C2: a ready three-page document loads successfully, and a
null-status load shows the overlay with the error message. -/
theorem load_file_spec_witness :
    (load_file "/tmp/doc.pdf" PdfStatus.Ready 3).result = true ∧
    (load_file "/tmp/doc.pdf" PdfStatus.Ready 3).stackIndex = 0 ∧
    (load_file "/tmp/doc.pdf" PdfStatus.Null 0).result = false ∧
    (load_file "/tmp/doc.pdf" PdfStatus.Null 0).stackIndex = 1 :=
  ⟨((load_file_spec "/tmp/doc.pdf" PdfStatus.Ready 3).2 ⟨rfl, by decide⟩).1,
   ((load_file_spec "/tmp/doc.pdf" PdfStatus.Ready 3).2 ⟨rfl, by decide⟩).2.1,
   (((load_file_spec "/tmp/doc.pdf" PdfStatus.Null 0).1).mpr (Or.inr rfl)).1,
   (((load_file_spec "/tmp/doc.pdf" PdfStatus.Null 0).1).mpr (Or.inr rfl)).2.1⟩

/-- Claim C3 counterexample: in `tidy.py` the favorites loader does not
fall back to the empty-list default when the favorites file is absent —
`read_text` raises `FileNotFoundError` and no list is produced at all,
so loading fails rather than yielding the default. -/
theorem tidy_loadFavorites_counterexample :
    tidy_loadFavorites none = none ∧ tidy_loadFavorites none ≠ some [] :=
  ⟨rfl, by decide⟩

/-- Claim C3 amended: in `pdf_viewer.py` every persisted preference falls
back to its default when its file is absent or invalid — an absent
favorites file loads as the empty list for every state of the file
system, an absent last-root file leaves the start root at the home
directory, and an absent or unparseable window-state file restores the
maximized default — while `tidy.py`'s favorites loader, which has no
existence check, raises instead of defaulting on an absent file and
loads every line unfiltered otherwise. -/
theorem startup_fallback_defaults (pathExists : String → Bool) (home : String) :
    load_favorites pathExists none = [] ∧
    load_last_root pathExists none = none ∧
    start_root pathExists none home = home ∧
    load_window_settings none = ⟨none, WindowDisplay.maximized⟩ ∧
    load_window_settings (some none) = ⟨none, WindowDisplay.maximized⟩ ∧
    tidy_loadFavorites none = none ∧
    (∀ txt, tidy_loadFavorites (some txt) = some (pySplitlines txt)) :=
  ⟨rfl, rfl, rfl, rfl, rfl, rfl, fun _ => rfl⟩

/-- Claim C4: saving writes exactly the current list items joined by
single newline characters, and loading yields exactly the non-empty
stripped lines of the file whose paths exist on disk, in file order. -/
theorem favorites_persistence_format (items : List String)
    (pathExists : String → Bool) (content : String) :
    save_favorites items = String.intercalate "\n" items ∧
    load_favorites pathExists (some content) =
      ((pySplitlines content).map pyStrip).filter
        (fun l => l != "" && pathExists l) := by
  constructor
  · cases items with
    | nil => rfl
    | cons a as => exact (intercalate_go_eq_pyJoin "\n" as a).symm
  · exact filterMap_if_eq_map_filter pyStrip
      (fun s => s != "" && pathExists s) (pySplitlines content)

/-- Claim C5: on window close the geometry record is written as a JSON
object with a four-integer rectangle under "geometry" and a boolean
maximized flag under "is_maximized"; reloading that record restores the
same geometry and flag, so the latest value is persisted on close. -/
theorem close_event_persists_window_state (w : WindowState) :
    closeEvent_write w =
      Json.obj
        [("geometry", Json.arr [Json.num w.normalX, Json.num w.normalY,
                                Json.num w.normalW, Json.num w.normalH]),
         ("is_maximized", Json.bool w.maximized)] ∧
    load_window_settings (some (some (closeEvent_write w))) =
      ⟨some (w.normalX, w.normalY, w.normalW, w.normalH),
       if w.maximized then .maximized else .normal⟩ := by
  obtain ⟨x, y, ww, h, m⟩ := w
  exact ⟨rfl, by cases m <;> rfl⟩

/-- Claim C6 counterexample: a present, parseable window-state record
whose geometry list has three elements does not fall back to the
maximized default — the code shows the window normal (because the
stored is_maximized flag is false). -/
theorem load_window_settings_counterexample :
    (load_window_settings (some (some badWindowJson))).display = WindowDisplay.normal ∧
    WindowDisplay.normal ≠ WindowDisplay.maximized :=
  ⟨rfl, by decide⟩

/-- Claim C6 amended: restoring falls back to the maximized default when
the window-state file is absent or its JSON is unparseable; when the
JSON parses to an object, a geometry list that is not four elements is
merely ignored and the window is shown maximized or normal according to
the stored is_maximized flag (default false); only a four-element
geometry list restores the saved rectangle, again together with the
flag. -/
theorem load_window_settings_amended :
    (∀ file, (file = none ∨ file = some none) →
      load_window_settings file = ⟨none, WindowDisplay.maximized⟩) ∧
    (∀ (items : List Int) (b : Bool), items.length ≠ 4 →
      load_window_settings (some (some (Json.obj
          [("geometry", Json.arr (items.map Json.num)),
           ("is_maximized", Json.bool b)]))) =
        ⟨none, if b then WindowDisplay.maximized else WindowDisplay.normal⟩) ∧
    (∀ x y w h b,
      load_window_settings (some (some (Json.obj
          [("geometry", Json.arr [Json.num x, Json.num y, Json.num w, Json.num h]),
           ("is_maximized", Json.bool b)]))) =
        ⟨some (x, y, w, h),
         if b then WindowDisplay.maximized else WindowDisplay.normal⟩) := by
  refine ⟨?_, ?_, ?_⟩
  · rintro file (rfl | rfl) <;> rfl
  · intro items b hlen
    cases items with
    | nil => cases b <;> rfl
    | cons i is =>
        have h3 : ¬ (is.length = 3) := by
          intro h
          exact hlen (by simp [h])
        cases b <;>
          simp [load_window_settings, dictGet, jsonTruthy, jsonLen, h3]
  · intro x y w h b
    cases b <;> rfl

/-- Witness for C6 amended: the absent file and a concrete three-element
geometry record. -/
theorem load_window_settings_amended_witness :
    load_window_settings none = ⟨none, WindowDisplay.maximized⟩ ∧
    load_window_settings (some (some (Json.obj
        [("geometry", Json.arr ([(1 : Int), 2, 3].map Json.num)),
         ("is_maximized", Json.bool false)]))) =
      ⟨none, WindowDisplay.normal⟩ :=
  ⟨load_window_settings_amended.1 none (Or.inl rfl),
   load_window_settings_amended.2.1 [1, 2, 3] false (by decide)⟩

/-- Claim C7: the start root is the stored last-root path exactly when
the last-root file exists and its stripped content is non-empty and
exists on disk; otherwise it falls back to the home directory; and
activating a favorite folder that exists writes that folder back to the
last-root file. -/
theorem start_root_spec (pathExists : String → Bool) (content : Option String)
    (home : String) :
    (∀ txt, content = some txt → pyStrip txt ≠ "" →
      pathExists (pyStrip txt) = true →
      start_root pathExists content home = pyStrip txt) ∧
    (content = none → start_root pathExists content home = home) ∧
    (∀ txt, content = some txt →
      (pyStrip txt = "" ∨ pathExists (pyStrip txt) = false) →
      start_root pathExists content home = home) ∧
    (∀ folder, pathExists folder = true →
      activate_favorite pathExists folder = some folder) := by
  refine ⟨?_, ?_, ?_, ?_⟩
  · rintro txt rfl hne hex
    simp [start_root, load_last_root, hne, hex]
  · rintro rfl; rfl
  · rintro txt rfl h
    rcases h with h | h <;> simp [start_root, load_last_root, h]
  · intro folder hfold
    simp [activate_favorite, hfold]

/-- Witness for C7: a stored root that exists on disk is restored, and an
absent file falls back to home. -/
theorem start_root_spec_witness :
    start_root (fun s => s == "/data") (some "/data") "/home/user" = "/data" ∧
    start_root (fun s => s == "/data") none "/home/user" = "/home/user" ∧
    activate_favorite (fun s => s == "/data") "/data" = some "/data" :=
  ⟨(start_root_spec (fun s => s == "/data") (some "/data") "/home/user").1
      "/data" rfl (by decide) (by decide),
   (start_root_spec (fun s => s == "/data") none "/home/user").2.1 rfl,
   (start_root_spec (fun s => s == "/data") none "/home/user").2.2.2
      "/data" (by decide)⟩

/-- Claim C10: adding a favorite folder already present in the list
changes nothing — neither the in-memory list nor the saved file; adding
twice equals adding once, and adding preserves the absence of duplicate
entries. -/
theorem add_favorite_idempotent (st : FavoritesState) (folder : String) :
    (folder ∈ st.favList → add_favorite st folder = st) ∧
    add_favorite (add_favorite st folder) folder = add_favorite st folder ∧
    (st.favList.Nodup → (add_favorite st folder).favList.Nodup) := by
  have hbridge : ∀ (l : List String) (x : String),
      l.contains x = true ↔ x ∈ l := by
    intro l x
    simp [List.contains, List.elem_iff]
  have hskip : ∀ h : folder = "", add_favorite st folder = st := by
    intro h
    unfold add_favorite
    rw [if_pos h]
  have hdup : ∀ (hne : ¬ folder = "") (hmem : folder ∈ st.favList),
      add_favorite st folder = st := by
    intro hne hmem
    unfold add_favorite
    rw [if_neg hne, if_pos ((hbridge _ _).mpr hmem)]
  have hnew : ∀ (hne : ¬ folder = "") (hmem : folder ∉ st.favList),
      add_favorite st folder =
        ⟨st.favList ++ [folder],
         some (save_favorites (st.favList ++ [folder]))⟩ := by
    intro hne hmem
    have hcn : ¬ (st.favList.contains folder = true) := fun h =>
      hmem ((hbridge _ _).mp h)
    unfold add_favorite
    rw [if_neg hne, if_neg hcn]
  refine ⟨?_, ?_, ?_⟩
  · intro hmem
    by_cases he : folder = ""
    · exact hskip he
    · exact hdup he hmem
  · by_cases he : folder = ""
    · rw [hskip he]
      exact hskip he
    · by_cases hmem : folder ∈ st.favList
      · rw [hdup he hmem]
        exact hdup he hmem
      · have h1 := hnew he hmem
        have h2 : add_favorite
            (⟨st.favList ++ [folder],
              some (save_favorites (st.favList ++ [folder]))⟩ : FavoritesState)
            folder =
            ⟨st.favList ++ [folder],
             some (save_favorites (st.favList ++ [folder]))⟩ := by
          unfold add_favorite
          rw [if_neg he,
            if_pos ((hbridge _ _).mpr
              (List.mem_append_right _ (List.mem_singleton.mpr rfl)))]
        rw [h1, h2]
  · intro hnd
    by_cases he : folder = ""
    · rw [hskip he]; exact hnd
    · by_cases hmem : folder ∈ st.favList
      · rw [hdup he hmem]; exact hnd
      · rw [hnew he hmem]
        exact List.nodup_append_comm.mpr
          (by simpa using List.nodup_cons.mpr ⟨hmem, hnd⟩)

/-- Witness for C10: re-adding the single favorite already in the list is
a no-op. -/
theorem add_favorite_idempotent_witness :
    add_favorite ⟨["/home/user/papers"], none⟩ "/home/user/papers" =
      ⟨["/home/user/papers"], none⟩ :=
  (add_favorite_idempotent ⟨["/home/user/papers"], none⟩ "/home/user/papers").1
    (List.mem_singleton.mpr rfl)

end PdfViewer
